import Mathlib

/-!
# Trade-vision: portfolio accounting front-end, verified model

A shallow embedding of the portfolio-accounting logic of the trade-vision
dashboard (an Angular front-end).  JavaScript numbers are modelled as
rationals (`ℚ`), JS `Record` lookups as `String → Option _` functions
(`none` models `undefined`), and the JS `||` fallback operator as an
explicit default.  Components' reactive signals become explicit state
records, and each method becomes a state-transition function.
-/

namespace TradeVision

/-! ## JS semantics helpers -/

/-- JS `x || d` on a number-or-undefined value: `undefined` and `0` are
falsy, every other number is truthy. -/
def jsOrNum (x : Option ℚ) (d : ℚ) : ℚ :=
  match x with
  | some v => if v = 0 then d else v
  | none => d

/-- JS `x || d` on an array-or-undefined value: every array (even empty)
is truthy, only `undefined` falls through to the default. -/
def jsOrList (x : Option (List ℚ)) (d : List ℚ) : List ℚ :=
  x.getD d

/-! ## Portfolio Type Policy
(`src/frontend/src/app/data-access/models/portfolio.model.ts`)

`PORTFOLIO_TYPES : Record<PortfolioType, number[]>` and
`WITHDRAWAL_PERCENTAGES : Record<string, number>` are string-keyed lookup
tables; indexing with a key that is absent yields `undefined`, modelled
by `none`. -/

def PORTFOLIO_TYPES (t : String) : Option (List ℚ) :=
  if t = "Securise" then some []
  else if t = "Conservateur" then some [2/10, 6/10, 1, 14/10, 18/10]
  else if t = "Modere" then some [2]
  else if t = "Agressif" then some [25/10, 3, 35/10, 4, 45/10]
  else none

def WITHDRAWAL_PERCENTAGES (t : String) : Option ℚ :=
  if t = "Securise" then some 50
  else if t = "Conservateur" then some 70
  else if t = "Modere" then some 80
  else if t = "Agressif" then some 90
  else none

/-- `getFactorsForType` of `PortfolioFormComponent`:
`return PORTFOLIO_TYPES[type] || [];`. -/
def getFactorsForType (t : String) : List ℚ :=
  jsOrList (PORTFOLIO_TYPES t) []

/-- `withdrawalPct` computed signal of `MonthlyRecordsComponent`:
`WITHDRAWAL_PERCENTAGES[this.portfolioType] || 80`. -/
def withdrawalPct (portfolioType : String) : ℚ :=
  jsOrNum (WITHDRAWAL_PERCENTAGES portfolioType) 80

/-- The four recognized portfolio type names. -/
def knownPortfolioTypes : List String :=
  ["Securise", "Conservateur", "Modere", "Agressif"]

/-- The allowed-lot-factor table exactly as the specification words it
(§4.1 `allowedLotFactors`), for comparison with `PORTFOLIO_TYPES`. -/
def specAllowedLotFactors (t : String) : Option (List ℚ) :=
  if t = "Securise" then some []
  else if t = "Conservateur" then some [2/10, 6/10, 1, 14/10, 18/10]
  else if t = "Modere" then some [2]
  else if t = "Agressif" then some [25/10, 3, 35/10, 4, 45/10]
  else none

/-- The withdrawal-percentage table exactly as the specification words it
(§4.1 `withdrawalPercentage`), for comparison with
`WITHDRAWAL_PERCENTAGES`. -/
def specWithdrawalPercentage (t : String) : Option ℚ :=
  if t = "Securise" then some 50
  else if t = "Conservateur" then some 70
  else if t = "Modere" then some 80
  else if t = "Agressif" then some 90
  else none

/-! ### C1: unknown portfolio types silently default -/

/-- C1, counterexample: for the unknown type string `"Dynamique"` (not one
of the four known types) the code does NOT signal a configuration error;
`getFactorsForType` silently yields the default `[]` and the
`withdrawalPct` computation silently yields the default `80`, refuting the
claim that an unknown type never silently yields a default value. -/
theorem c1_unknown_type_silently_defaults :
    "Dynamique" ∉ knownPortfolioTypes ∧
    getFactorsForType "Dynamique" = [] ∧
    withdrawalPct "Dynamique" = 80 := by
  refine ⟨by decide, ?_, ?_⟩ <;> rfl

/-- C1, amended: for every portfolio type string not in
{Securise, Conservateur, Modere, Agressif}, `getFactorsForType` falls back
to the empty factor list and the `withdrawalPct` computation falls back to
80; no error is signalled (the lookups are total functions with silent
defaults). -/
theorem c1_amended_unknown_type_defaults (t : String)
    (h : t ∉ knownPortfolioTypes) :
    getFactorsForType t = [] ∧ withdrawalPct t = 80 := by
  simp only [knownPortfolioTypes, List.mem_cons, List.not_mem_nil, or_false,
    not_or] at h
  obtain ⟨h1, h2, h3, h4⟩ := h
  constructor
  · simp [getFactorsForType, PORTFOLIO_TYPES, jsOrList, h1, h2, h3, h4]
  · simp [withdrawalPct, WITHDRAWAL_PERCENTAGES, jsOrNum, h1, h2, h3, h4]

/-- C1, witness for the amended theorem at the concrete unknown type
`"Dynamique"`. -/
theorem c1_amended_witness :
    getFactorsForType "Dynamique" = [] ∧ withdrawalPct "Dynamique" = 80 :=
  c1_amended_unknown_type_defaults "Dynamique" (by decide)

/-! ### C3: the lot-factor table equals the specification's table -/

/-- C3: the `PORTFOLIO_TYPES` constant agrees with the specification's
reference table on every string: Securise ↦ [], Conservateur ↦
[0.2, 0.6, 1.0, 1.4, 1.8], Modere ↦ [2.0], Agressif ↦
[2.5, 3.0, 3.5, 4.0, 4.5], and no other type maps to any factors at all. -/
theorem c3_factor_table_matches_spec :
    ∀ t : String, PORTFOLIO_TYPES t = specAllowedLotFactors t := by
  intro t
  rfl

/-! ### C4: the withdrawal-percentage table equals the specification's -/

/-- C4: the `WITHDRAWAL_PERCENTAGES` constant agrees with the
specification's reference table on every string: Securise ↦ 50,
Conservateur ↦ 70, Modere ↦ 80, Agressif ↦ 90, and no other type is
mapped. -/
theorem c4_withdrawal_table_matches_spec :
    ∀ t : String, WITHDRAWAL_PERCENTAGES t = specWithdrawalPercentage t := by
  intro t
  rfl

/-! ## Elite distribution display
(`PortfolioDetailPageComponent.getDistributionPct`)

The historical record's `total_remuneration` / `total_compound` /
`total_transfer` numeric fields are modelled as rationals (the code's
`|| 0` guard is the identity on a number that is present). -/

structure EliteHistory where
  total_remuneration : ℚ
  total_compound : ℚ
  total_transfer : ℚ
deriving DecidableEq

/-- `getDistributionPct(history, type)`:
the sum of the three totals; zero-sum guard returning 0; otherwise a
`switch` on the kind string with default 0. -/
def getDistributionPct (history : EliteHistory) (type : String) : ℚ :=
  let total := history.total_remuneration + history.total_compound +
    history.total_transfer
  if total = 0 then 0
  else if type = "remun" then history.total_remuneration / total * 100
  else if type = "compound" then history.total_compound / total * 100
  else if type = "transfer" then history.total_transfer / total * 100
  else 0

/-! ### C9: guarded division and percentages summing to 100 -/

/-- C9: if the three totals sum to 0 then `getDistributionPct` returns 0
for every requested kind (the division is guarded); if the sum is
non-zero the three percentages for `"remun"`, `"compound"` and
`"transfer"` sum exactly to 100; and any unrecognized kind string returns
0. -/
theorem c9_distribution_pct (h : EliteHistory) :
    (h.total_remuneration + h.total_compound + h.total_transfer = 0 →
      ∀ k : String, getDistributionPct h k = 0) ∧
    (h.total_remuneration + h.total_compound + h.total_transfer ≠ 0 →
      getDistributionPct h "remun" + getDistributionPct h "compound" +
        getDistributionPct h "transfer" = 100) ∧
    (∀ k : String, k ≠ "remun" → k ≠ "compound" → k ≠ "transfer" →
      getDistributionPct h k = 0) := by
  refine ⟨?_, ?_, ?_⟩
  · intro hz k
    simp [getDistributionPct, hz]
  · intro hz
    have h1 : ("compound" : String) ≠ "remun" := by decide
    have h2 : ("transfer" : String) ≠ "remun" := by decide
    have h3 : ("transfer" : String) ≠ "compound" := by decide
    simp only [getDistributionPct, if_neg hz, if_pos rfl, if_neg h1,
      if_neg h2, if_neg h3]
    field_simp
    ring
  · intro k h1 h2 h3
    simp [getDistributionPct, h1, h2, h3]

/-- C9, witness: the theorem applied at the record (10, 20, 70), whose
non-zero total lets the three percentages evaluate to 10, 20 and 70. -/
theorem c9_witness :
    getDistributionPct ⟨10, 20, 70⟩ "remun" +
      getDistributionPct ⟨10, 20, 70⟩ "compound" +
      getDistributionPct ⟨10, 20, 70⟩ "transfer" = 100 :=
  (c9_distribution_pct ⟨10, 20, 70⟩).2.1 (by norm_num)

/-! ## Favorites storage (`StorageService`)

The favorites signal holds a `Set<number>`, modelled as a `Finset ℕ`. -/

/-- `toggleFavorite(accountId)`: copy the set, delete the id if present,
otherwise add it, and store the result. -/
def toggleFavorite (favorites : Finset ℕ) (accountId : ℕ) : Finset ℕ :=
  if accountId ∈ favorites then favorites.erase accountId
  else insert accountId favorites

/-- `isFavorite(accountId)`: membership test on the favorites set. -/
def isFavorite (favorites : Finset ℕ) (accountId : ℕ) : Bool :=
  accountId ∈ favorites

/-! ### C10: toggleFavorite is an involution -/

/-- C10: toggling the same account id twice restores the original
favorites set; after a single toggle `isFavorite accountId` is the
negation of its previous value, and membership of every other id is
unchanged. -/
theorem c10_toggle_favorite_involution (favorites : Finset ℕ)
    (accountId : ℕ) :
    toggleFavorite (toggleFavorite favorites accountId) accountId =
      favorites ∧
    isFavorite (toggleFavorite favorites accountId) accountId =
      ! isFavorite favorites accountId ∧
    ∀ b : ℕ, b ≠ accountId →
      isFavorite (toggleFavorite favorites accountId) b =
        isFavorite favorites b := by
  by_cases hmem : accountId ∈ favorites
  · refine ⟨?_, ?_, ?_⟩
    · simp [toggleFavorite, hmem, Finset.insert_erase hmem]
    · simp [toggleFavorite, isFavorite, hmem]
    · intro b hb
      simp [toggleFavorite, isFavorite, hmem, Finset.mem_erase, hb]
  · refine ⟨?_, ?_, ?_⟩
    · simp [toggleFavorite, hmem, Finset.erase_insert hmem]
    · simp [toggleFavorite, isFavorite, hmem]
    · intro b hb
      simp [toggleFavorite, isFavorite, hmem, Finset.mem_insert, hb]

/-- C10, witness: the theorem applied to the set {3, 7} and id 3, with the
other-id clause evaluated at 7. -/
theorem c10_witness :
    toggleFavorite (toggleFavorite {3, 7} 3) 3 = ({3, 7} : Finset ℕ) ∧
    isFavorite (toggleFavorite {3, 7} 3) 7 = isFavorite {3, 7} 7 :=
  ⟨(c10_toggle_favorite_involution {3, 7} 3).1,
   (c10_toggle_favorite_involution {3, 7} 3).2.2 7 (by decide)⟩

/-! ## Portfolio detail page (`PortfolioDetailPageComponent`) -/

/-- The slice of `PortfolioDetail` that `saveStartingBalance` reads
(it only uses `p.id`; identity fields kept for concreteness). -/
structure PortfolioDetail where
  id : ℕ
  name : String
  type : String
  client : String
deriving DecidableEq

/-- The component state touched by `saveStartingBalance`: the loaded
portfolio, the error signal and the editing marker. -/
structure DetailPageState where
  portfolio : Option PortfolioDetail
  error : Option String
  editingStartingBalance : Option ℕ
deriving DecidableEq

/-- The body of a `updateStartingBalance` HTTP request:
`(portfolio id, account_id, starting_balance)`. -/
structure UpdateStartingBalanceRequest where
  portfolioId : ℕ
  account_id : ℕ
  starting_balance : ℚ
deriving DecidableEq

/-- `saveStartingBalance(accountId, value)`.  `parseFloat(value)` is
modelled by its result: `none` for NaN (non-numeric input), `some b` for
a parsed number `b`.  The function returns the new synchronous component
state together with the issued request, if any:
guard `!p → return`; `isNaN(balance) || balance < 0 → error, return`;
otherwise the `updateStartingBalance` request is issued. -/
def saveStartingBalance (st : DetailPageState) (accountId : ℕ)
    (parsed : Option ℚ) : DetailPageState × Option UpdateStartingBalanceRequest :=
  match st.portfolio with
  | none => (st, none)
  | some p =>
    match parsed with
    | none => ({ st with error := some "Balance invalide" }, none)
    | some balance =>
      if balance < 0 then ({ st with error := some "Balance invalide" }, none)
      else (st, some ⟨p.id, accountId, balance⟩)

/-! ### C5: starting-balance validation -/

/-- C5: with a portfolio loaded, if the parsed value is NaN or negative
then `saveStartingBalance` sets the validation error message and issues
no write, leaving every other piece of state unchanged; if the parsed
value is ≥ 0 it issues the `updateStartingBalance` request for that
value and changes nothing synchronously. -/
theorem c5_save_starting_balance (st : DetailPageState)
    (p : PortfolioDetail) (accountId : ℕ) (parsed : Option ℚ)
    (hp : st.portfolio = some p) :
    ((parsed = none ∨ ∃ b, parsed = some b ∧ b < 0) →
      saveStartingBalance st accountId parsed =
        ({ st with error := some "Balance invalide" }, none)) ∧
    (∀ b : ℚ, parsed = some b → 0 ≤ b →
      saveStartingBalance st accountId parsed =
        (st, some ⟨p.id, accountId, b⟩)) := by
  constructor
  · rintro (hnan | ⟨b, hb, hneg⟩)
    · simp [saveStartingBalance, hp, hnan]
    · simp [saveStartingBalance, hp, hb, hneg]
  · intro b hb hpos
    simp [saveStartingBalance, hp, hb, not_lt.mpr hpos]

/-- C5, witness: the theorem applied at a loaded portfolio with a
negative parsed value (aborts with the error) and, at the same state,
with a non-negative parsed value (issues the request). -/
theorem c5_witness :
    saveStartingBalance ⟨some ⟨1, "P", "Modere", "Akaj"⟩, none, none⟩ 5
        (some (-2)) =
      (⟨some ⟨1, "P", "Modere", "Akaj"⟩, some "Balance invalide", none⟩,
        none) ∧
    saveStartingBalance ⟨some ⟨1, "P", "Modere", "Akaj"⟩, none, none⟩ 5
        (some 300) =
      (⟨some ⟨1, "P", "Modere", "Akaj"⟩, none, none⟩, some ⟨1, 5, 300⟩) :=
  ⟨(c5_save_starting_balance _ ⟨1, "P", "Modere", "Akaj"⟩ 5 (some (-2))
      rfl).1 (Or.inr ⟨-2, rfl, by norm_num⟩),
   (c5_save_starting_balance _ ⟨1, "P", "Modere", "Akaj"⟩ 5 (some 300)
      rfl).2 300 rfl (by norm_num)⟩

/-! ## Account selector (`AccountSelectorComponent`) -/

/-- The fields of `AccountSummary` that `filteredAccounts` reads.  The
declared `AccountSummary` interface has no `client` field, so at runtime
`a.client` may be `undefined`: it is modelled as an `Option String`.
Display-only numeric fields are kept as a representative `balance`. -/
structure AccountSummary where
  id : ℕ
  name : String
  balance : ℚ
  currency : String
  connected : Bool
  client : Option String
deriving DecidableEq

/-- `startsWith` on character lists (helper for the substring test). -/
def charsStartsWith : List Char → List Char → Bool
  | [], _ => true
  | _ :: _, [] => false
  | a :: as, b :: bs => a == b && charsStartsWith as bs

/-- Substring search on character lists: `sub` occurs in the list. -/
def charsIncludes (sub : List Char) : List Char → Bool
  | [] => charsStartsWith sub []
  | c :: rest => charsStartsWith sub (c :: rest) || charsIncludes sub rest

/-- JS `s.includes(sub)`: substring test. -/
def jsIncludes (s : String) (sub : String) : Bool :=
  charsIncludes sub.data s.data

/-- JS `toLowerCase()` for the ASCII range, on one character. -/
def jsLowerChar (c : Char) : Char :=
  if 'A' ≤ c ∧ c ≤ 'Z' then Char.ofNat (c.toNat + 32) else c

/-- JS `s.toLowerCase()` (ASCII model). -/
def jsToLower (s : String) : String :=
  ⟨s.data.map jsLowerChar⟩

/-- JS `s.trim()`: strip leading and trailing whitespace. -/
def jsTrim (s : String) : String :=
  ⟨((s.data.dropWhile (·.isWhitespace)).reverse.dropWhile
      (·.isWhitespace)).reverse⟩

/-- The `filteredAccounts` computed signal:
`accounts.filter(a => !usedAccountIds.has(a.id) && a.connected)`, then a
client filter when `portfolioClient` is truthy (non-empty), then a
name/id search filter when the lowercased trimmed query is truthy. -/
def filteredAccounts (accounts : List AccountSummary)
    (usedAccountIds : Finset ℕ) (portfolioClient : String)
    (searchQuery : String) : List AccountSummary :=
  let query := jsTrim (jsToLower searchQuery)
  let result := accounts.filter fun a =>
    !(decide (a.id ∈ usedAccountIds)) && a.connected
  let result := if portfolioClient = "" then result
    else result.filter fun a => a.client == some portfolioClient
  if query = "" then result
  else result.filter fun a =>
    jsIncludes (jsToLower a.name) query || jsIncludes (Nat.repr a.id) query

/-- Conditional filters only remove elements. -/
theorem mem_of_mem_ite_filter {α : Type} {l : List α} {p : α → Bool}
    {c : Prop} [Decidable c] {a : α}
    (h : a ∈ if c then l else l.filter p) : a ∈ l := by
  split at h
  · exact h
  · exact (List.mem_filter.mp h).1

/-! ### C6: used accounts are never selectable -/

/-- C6: for every candidate list, used-id set, client filter and search
query, no account in the selector's filtered list has its id in the
used-account-ids set, so an account already attached to another portfolio
cannot be selected. -/
theorem c6_filtered_accounts_excludes_used
    (accounts : List AccountSummary) (usedAccountIds : Finset ℕ)
    (portfolioClient : String) (searchQuery : String)
    (a : AccountSummary)
    (ha : a ∈ filteredAccounts accounts usedAccountIds portfolioClient
      searchQuery) : a.id ∉ usedAccountIds := by
  simp only [filteredAccounts] at ha
  have h1 := mem_of_mem_ite_filter (mem_of_mem_ite_filter ha)
  have h2 := (List.mem_filter.mp h1).2
  simp only [Bool.and_eq_true, Bool.not_eq_true', decide_eq_false_iff_not]
    at h2
  exact h2.1

/-- C6, witness: the theorem applied at a two-account list where account
8 is used: the filtered list is exactly the unused connected account, and
its id is not in the used set. -/
theorem c6_witness :
    (7 : ℕ) ∉ ({8} : Finset ℕ) ∧
    filteredAccounts
        [⟨7, "a", 100, "EUR", true, some "Akaj"⟩,
         ⟨8, "b", 200, "EUR", true, some "Akaj"⟩] {8} "" "" =
      [⟨7, "a", 100, "EUR", true, some "Akaj"⟩] :=
  ⟨c6_filtered_accounts_excludes_used
      [⟨7, "a", 100, "EUR", true, some "Akaj"⟩,
       ⟨8, "b", 200, "EUR", true, some "Akaj"⟩] {8} "" ""
      ⟨7, "a", 100, "EUR", true, some "Akaj"⟩ (by decide),
   by decide⟩

/-! ## Monthly snapshot lifecycle

Record shapes from
`src/frontend/src/app/data-access/models/portfolio.model.ts`. -/

structure MonthlyAccountRecord where
  account_id : ℕ
  account_name : String
  lot_factor : ℚ
  starting_balance : ℚ
  ending_balance : ℚ
  profit : ℚ
  profit_percent : ℚ
  weight : ℚ
  suggested_withdrawal : ℚ
  actual_withdrawal : ℚ
  currency : String
deriving DecidableEq

structure MonthlySnapshot where
  month : String
  total_starting : ℚ
  total_ending : ℚ
  total_profit : ℚ
  total_profit_percent : ℚ
  total_withdrawal : ℚ
  accounts : List MonthlyAccountRecord
  is_closed : Bool
deriving DecidableEq

structure UpdateWithdrawalRequest where
  account_id : ℕ
  withdrawal : ℚ
  note : Option String
deriving DecidableEq

/-- Write the requested actual withdrawals into a snapshot's account
records (accounts without a matching request are untouched). -/
def applyWithdrawals (snap : MonthlySnapshot)
    (withdrawals : List UpdateWithdrawalRequest) : MonthlySnapshot :=
  { snap with accounts := snap.accounts.map fun rec =>
      match withdrawals.find? (fun w => w.account_id == rec.account_id) with
      | some w => { rec with actual_withdrawal := w.withdrawal }
      | none => rec }

/-- Modelled from the spec: the persistence-side handler behind
`Mt5ApiService.updateMonthlyWithdrawals` (the PUT issued by
`MonthlyRecordsComponent.saveWithdrawals`).  The snapshot store and its
update handler are not among the front-end sources; spec §4.4: "once
closed the record is read-only; any update attempt against a closed month
fails with a 'month already closed' condition."  The store maps MonthKeys
to persisted `MonthlySnapshot`s; updating an open month writes the actual
withdrawals, updating a closed month is rejected, returning an error and
leaving the store untouched. -/
def updateMonthlyWithdrawals (store : List (String × MonthlySnapshot))
    (month : String) (withdrawals : List UpdateWithdrawalRequest) :
    Except String (List (String × MonthlySnapshot)) :=
  match store.lookup month with
  | none => Except.error "month not found"
  | some snap =>
    if snap.is_closed then Except.error "month already closed"
    else Except.ok (store.map fun e =>
      if e.1 = month then (e.1, applyWithdrawals snap withdrawals) else e)

/-! ### C2: no withdrawal update against a closed month succeeds -/

/-- C2: if the persisted snapshot for a month is closed, the
withdrawal-update operation against that month fails with the
"month already closed" state error; in particular it never returns a
successor store, so the persisted record is left unchanged. -/
theorem c2_closed_month_update_rejected
    (store : List (String × MonthlySnapshot)) (month : String)
    (withdrawals : List UpdateWithdrawalRequest) (snap : MonthlySnapshot)
    (hlookup : store.lookup month = some snap)
    (hclosed : snap.is_closed = true) :
    updateMonthlyWithdrawals store month withdrawals =
      Except.error "month already closed" ∧
    ∀ store' : List (String × MonthlySnapshot),
      updateMonthlyWithdrawals store month withdrawals ≠
        Except.ok store' := by
  have herr : updateMonthlyWithdrawals store month withdrawals =
      Except.error "month already closed" := by
    simp [updateMonthlyWithdrawals, hlookup, hclosed]
  exact ⟨herr, fun store' hok => by simp [herr] at hok⟩

/-- C2, witness: the theorem applied at a one-snapshot store whose only
month `"2025-09"` is closed. -/
theorem c2_witness :
    updateMonthlyWithdrawals
        [("2025-09", ⟨"2025-09", 1000, 1100, 100, 10, 80, [], true⟩)]
        "2025-09" [⟨3, 42, none⟩] =
      Except.error "month already closed" :=
  (c2_closed_month_update_rejected
    [("2025-09", ⟨"2025-09", 1000, 1100, 100, 10, 80, [], true⟩)]
    "2025-09" [⟨3, 42, none⟩]
    ⟨"2025-09", 1000, 1100, 100, 10, 80, [], true⟩ (by decide) rfl).1

/-! ## Mt5ApiService reactive state and `refresh()`
(`src/frontend/src/app/data-access/api/mt5-api.service.ts`)

Payload shapes from the model interfaces; `number | null` fields become
`Option ℚ`.  A fetch result is `Option payload`: `none` models the
observable erroring (caught by the corresponding `catchError`). -/

structure AccountInfo where
  balance : ℚ
  equity : ℚ
  margin : ℚ
  free_margin : ℚ
  margin_level : Option ℚ
  profit : ℚ
  leverage : ℚ
  server : String
  name : String
  login : ℕ
  currency : String
  trade_mode : String
deriving DecidableEq

structure AccountStats where
  balance : ℚ
  equity : ℚ
  profit : ℚ
  drawdown : ℚ
  drawdown_percent : ℚ
  initial_deposit : ℚ
  total_deposits : ℚ
  total_withdrawals : ℚ
  growth_percent : ℚ
  timestamp : String
deriving DecidableEq

structure TradeStats where
  total_trades : ℕ
  winning_trades : ℕ
  losing_trades : ℕ
  win_rate : ℚ
  best_trade : ℚ
  worst_trade : ℚ
  gross_profit : ℚ
  gross_loss : ℚ
  profit_factor : ℚ
  average_profit : ℚ
  average_loss : ℚ
  max_consecutive_wins : ℕ
  max_consecutive_losses : ℕ
  longs_count : ℕ
  shorts_count : ℕ
  longs_won : ℕ
  shorts_won : ℕ
  avg_holding_time_seconds : ℚ
  expected_payoff : ℚ
deriving DecidableEq

structure RiskMetrics where
  max_drawdown : ℚ
  max_drawdown_percent : ℚ
  relative_drawdown_balance : ℚ
  relative_drawdown_equity : ℚ
  max_deposit_load : ℚ
  sharpe_coefficient : ℚ
  recovery_factor : ℚ
  current_drawdown : ℚ
  current_drawdown_percent : ℚ
deriving DecidableEq

structure Position where
  ticket : ℕ
  symbol : String
  type : String
  volume : ℚ
  open_time : String
  open_price : ℚ
  current_price : ℚ
  profit : ℚ
  sl : Option ℚ
  tp : Option ℚ
deriving DecidableEq

structure MonthlyGrowth where
  year : ℕ
  months : List (String × Option ℚ)
  values : List (String × Option ℚ)
  year_total : Option ℚ
  year_total_value : Option ℚ
deriving DecidableEq

structure FullDashboard where
  account : AccountInfo
  stats : AccountStats
  trade_stats : TradeStats
  risk_metrics : RiskMetrics
  open_positions : List Position
  monthly_growth : List MonthlyGrowth
deriving DecidableEq

structure Trade where
  ticket : ℕ
  symbol : String
  type : String
  volume : ℚ
  open_time : String
  open_price : ℚ
  close_time : Option String
  close_price : Option ℚ
  profit : ℚ
  commission : ℚ
  swap : ℚ
  comment : String
deriving DecidableEq

structure HistoryPoint where
  balance : ℚ
  equity : ℚ
  drawdown : ℚ
  drawdown_percent : ℚ
  timestamp : String
deriving DecidableEq

structure DailyDrawdown where
  date : String
  drawdown_percent : ℚ
  start_balance : ℚ
  min_balance : ℚ
deriving DecidableEq

structure ConnectionStatus where
  connected : Bool
  server : Option String
  account : Option ℕ
  name : Option String
  company : Option String
deriving DecidableEq

/-- `SparklineData = Record<number, number[]>`, modelled as an
association list. -/
def SparklineData := List (ℕ × List ℚ)

/-- The `Mt5ApiService` reactive signals.  `lastUpdate` (a `Date`) is
kept as a timestamp. -/
structure ApiState where
  dashboard : Option FullDashboard
  history : List HistoryPoint
  trades : List Trade
  dailyDrawdown : List DailyDrawdown
  connectionStatus : Option ConnectionStatus
  sparkline : List ℚ
  error : Option String
  loading : Bool
  lastUpdate : Option ℕ
deriving DecidableEq

/-- One `refresh()` cycle's fetch outcomes, one per HTTP observable:
`none` means that fetch errored. -/
structure RefreshResults where
  dashboardRes : Option FullDashboard
  historyRes : Option (List HistoryPoint)
  statusRes : Option ConnectionStatus
  sparklinesRes : Option (List (ℕ × List ℚ))
  tradesRes : Option (List Trade)
  dailyDrawdownRes : Option (List DailyDrawdown)

/-- `refresh()`: sets `loading`/clears `error`; the dashboard fetch on
error sets `error = 'Connexion perdue'` (via `catchError -> of(null)`,
so `dashboard`/`lastUpdate` keep their values and `loading` is cleared);
the history/trades/daily-drawdown fetches fall back to `of([])` on error
and always store the emitted list; the status fetch falls back to
`of(null)` (signal kept on error), and a truthy `account` triggers the
sparklines fetch (fallback `of({})`, whose lookup misses, keeping the
sparkline signal). -/
def refresh (st : ApiState) (r : RefreshResults) (now : ℕ) : ApiState :=
  let st := { st with loading := true, error := none }
  let st :=
    match r.dashboardRes with
    | none => { st with error := some "Connexion perdue", loading := false }
    | some d =>
      { st with
        dashboard := some d
        lastUpdate := some now
        loading := false }
  let st := { st with history := r.historyRes.getD [] }
  let st :=
    match r.statusRes with
    | none => st
    | some cs =>
      let st := { st with connectionStatus := some cs }
      match cs.account with
      | none => st
      | some acct =>
        if acct = 0 then st
        else
          match (r.sparklinesRes.getD []).lookup acct with
          | none => st
          | some arr => { st with sparkline := arr }
  let st := { st with trades := r.tradesRes.getD [] }
  { st with dailyDrawdown := r.dailyDrawdownRes.getD [] }

/-- The refresh cycle in which the external service is unavailable:
every fetch errors. -/
def allFetchesFail : RefreshResults :=
  ⟨none, none, none, none, none, none⟩

/-! ### C7: behaviour when the external service is unavailable -/

/-- C7, counterexample: in a refresh where every fetch errors, the
connection-lost indicator is set, and `dashboard`/`lastUpdate` do keep
their last-fetched values — but the `history` signal does NOT: a held
non-empty history is overwritten with `[]` (and likewise `trades` and
`dailyDrawdown`), refuting the claim that every previously fetched data
signal retains its value. -/
theorem c7_history_cleared_on_total_failure :
    (refresh ⟨none, [⟨1000, 1000, 0, 0, "t0"⟩], [], [], none, [], none,
        false, none⟩ allFetchesFail 0).error = some "Connexion perdue" ∧
    (refresh ⟨none, [⟨1000, 1000, 0, 0, "t0"⟩], [], [], none, [], none,
        false, none⟩ allFetchesFail 0).history ≠
      [⟨1000, 1000, 0, 0, "t0"⟩] := by
  exact ⟨rfl, by decide⟩

/-- C7, amended: in a refresh where every fetch errors, the service sets
the generic connection-lost indicator, and `dashboard`, `lastUpdate`,
`connectionStatus` and `sparkline` retain their last-fetched values — but
`history`, `trades` and `dailyDrawdown` are reset to empty lists (their
`catchError` handlers substitute `of([])`, which is then stored). -/
theorem c7_amended_total_failure_state (st : ApiState) (now : ℕ) :
    refresh st allFetchesFail now =
      { st with
        error := some "Connexion perdue"
        loading := false
        history := []
        trades := []
        dailyDrawdown := [] } := by
  rfl

/-! ## MonthKey construction
(`MonthlyRecordsComponent.currentMonth`)

The code builds the key with a template literal:
`` `${now.getFullYear()}-${String(now.getMonth() + 1).padStart(2, '0')}` ``.
JS `String(n)` on a natural number yields its decimal digits (no leading
zeros), modelled through `Nat.digits`.  Strings compare through the
character-list order (`String.lt_iff`). -/

/-- The decimal digit character of `d` (`'0'` has code 48). -/
def digitChar (d : ℕ) : Char := Char.ofNat (48 + d)

/-- JS `String(n)` for a natural number: most-significant-first decimal
digits, `"0"` for zero. -/
def jsNatChars (n : ℕ) : List Char :=
  if n = 0 then ['0'] else ((Nat.digits 10 n).reverse).map digitChar

/-- JS `padStart(2, '0')`. -/
def padStart2 (l : List Char) : List Char :=
  if l.length < 2 then List.replicate (2 - l.length) '0' ++ l else l

/-- The `currentMonth` computed signal, as a function of the clock's
year and 1-based month (`getMonth() + 1`). -/
def currentMonth (year month : ℕ) : String :=
  ⟨jsNatChars year ++ '-' :: padStart2 (jsNatChars month)⟩

/-- Value of a most-significant-first digit list. -/
def digitsVal : List ℕ → ℕ
  | [] => 0
  | d :: ds => d * 10 ^ ds.length + digitsVal ds

theorem digitChar_lt_iff {d1 d2 : ℕ} (h1 : d1 < 10) (h2 : d2 < 10) :
    digitChar d1 < digitChar d2 ↔ d1 < d2 := by
  interval_cases d1 <;> interval_cases d2 <;> decide

theorem digitChar_inj {d1 d2 : ℕ} (h1 : d1 < 10) (h2 : d2 < 10) :
    digitChar d1 = digitChar d2 ↔ d1 = d2 := by
  interval_cases d1 <;> interval_cases d2 <;> decide

theorem charsLt_irrefl : ∀ l : List Char, ¬ l.lt l := by
  intro l h
  induction l with
  | nil => cases h
  | cons c cs ih =>
    cases h with
    | head _ _ h' => exact lt_irrefl c h'
    | tail _ _ h' => exact ih h'

theorem cons_lt_cons_iff {c : Char} {as bs : List Char} :
    (c :: as).lt (c :: bs) ↔ as.lt bs := by
  constructor
  · intro h
    cases h with
    | head _ _ h' => exact absurd h' (lt_irrefl c)
    | tail _ _ h' => exact h'
  · intro h
    exact List.lt.tail (lt_irrefl c) (lt_irrefl c) h

theorem not_cons_lt_cons_of_gt {x y : Char} (h : y < x)
    (as bs : List Char) : ¬ (x :: as).lt (y :: bs) := by
  intro hlt
  cases hlt with
  | head _ _ h' => exact absurd h (lt_asymm h')
  | tail h1 h2 _ => exact h2 h

theorem digitsVal_lt_pow (l : List ℕ) (h : ∀ d ∈ l, d < 10) :
    digitsVal l < 10 ^ l.length := by
  induction l with
  | nil => simp [digitsVal]
  | cons d ds ih =>
    have hd : d < 10 := h d (List.mem_cons_self d ds)
    have hds := ih fun x hx => h x (List.mem_cons_of_mem d hx)
    have h1 : d * 10 ^ ds.length + digitsVal ds < (d + 1) * 10 ^ ds.length := by
      have := hds
      nlinarith [pow_pos (show 0 < 10 by norm_num) ds.length]
    have h2 : (d + 1) * 10 ^ ds.length ≤ 10 * 10 ^ ds.length :=
      Nat.mul_le_mul_right _ hd
    calc digitsVal (d :: ds) = d * 10 ^ ds.length + digitsVal ds := rfl
      _ < (d + 1) * 10 ^ ds.length := h1
      _ ≤ 10 * 10 ^ ds.length := h2
      _ = 10 ^ (d :: ds).length := by
        simp [List.length_cons, pow_succ]
        ring

/-- Equal-length most-significant-first digit lists compare, as character
lists, exactly as their values compare. -/
theorem digit_lists_lt_iff : ∀ l1 l2 : List ℕ, l1.length = l2.length →
    (∀ d ∈ l1, d < 10) → (∀ d ∈ l2, d < 10) →
    ((l1.map digitChar).lt (l2.map digitChar) ↔ digitsVal l1 < digitsVal l2)
  | [], [], _, _, _ => by
    constructor
    · intro h
      cases h
    · intro h
      simp [digitsVal] at h
  | [], d2 :: t2, hlen, _, _ => by simp at hlen
  | d1 :: t1, [], hlen, _, _ => by simp at hlen
  | d1 :: t1, d2 :: t2, hlen, h1, h2 => by
    have hd1 : d1 < 10 := h1 d1 (List.mem_cons_self d1 t1)
    have hd2 : d2 < 10 := h2 d2 (List.mem_cons_self d2 t2)
    have ht1 : ∀ d ∈ t1, d < 10 := fun x hx => h1 x (List.mem_cons_of_mem d1 hx)
    have ht2 : ∀ d ∈ t2, d < 10 := fun x hx => h2 x (List.mem_cons_of_mem d2 hx)
    have hlen' : t1.length = t2.length := by simpa using hlen
    simp only [List.map_cons]
    rcases lt_trichotomy d1 d2 with hlt | heq | hgt
    · have hval : digitsVal (d1 :: t1) < digitsVal (d2 :: t2) := by
        have hv1 := digitsVal_lt_pow t1 ht1
        calc digitsVal (d1 :: t1) = d1 * 10 ^ t1.length + digitsVal t1 := rfl
          _ < (d1 + 1) * 10 ^ t1.length := by
            nlinarith [pow_pos (show 0 < 10 by norm_num) t1.length]
          _ ≤ d2 * 10 ^ t1.length := Nat.mul_le_mul_right _ hlt
          _ = d2 * 10 ^ t2.length := by rw [hlen']
          _ ≤ d2 * 10 ^ t2.length + digitsVal t2 := Nat.le_add_right _ _
          _ = digitsVal (d2 :: t2) := rfl
      exact iff_of_true
        (List.lt.head _ _ ((digitChar_lt_iff hd1 hd2).mpr hlt)) hval
    · subst heq
      rw [cons_lt_cons_iff, digit_lists_lt_iff t1 t2 hlen' ht1 ht2]
      show digitsVal t1 < digitsVal t2 ↔
        d1 * 10 ^ t1.length + digitsVal t1 < d1 * 10 ^ t2.length + digitsVal t2
      rw [hlen']
      exact Iff.symm Nat.add_lt_add_iff_left
    · have hval : digitsVal (d2 :: t2) < digitsVal (d1 :: t1) := by
        have hv2 := digitsVal_lt_pow t2 ht2
        calc digitsVal (d2 :: t2) = d2 * 10 ^ t2.length + digitsVal t2 := rfl
          _ < (d2 + 1) * 10 ^ t2.length := by
            nlinarith [pow_pos (show 0 < 10 by norm_num) t2.length]
          _ ≤ d1 * 10 ^ t2.length := Nat.mul_le_mul_right _ hgt
          _ = d1 * 10 ^ t1.length := by rw [hlen']
          _ ≤ d1 * 10 ^ t1.length + digitsVal t1 := Nat.le_add_right _ _
          _ = digitsVal (d1 :: t1) := rfl
      exact iff_of_false
        (not_cons_lt_cons_of_gt ((digitChar_lt_iff hd2 hd1).mpr hgt) _ _)
        (fun h => absurd hval (Nat.lt_asymm h))

theorem digitsVal_append_singleton (l : List ℕ) (d : ℕ) :
    digitsVal (l ++ [d]) = 10 * digitsVal l + d := by
  induction l with
  | nil => simp [digitsVal]
  | cons x xs ih =>
    simp only [List.cons_append, digitsVal, List.append_eq,
      List.length_append, List.length_cons, List.length_nil, ih]
    ring

theorem digitsVal_reverse_ofDigits (l : List ℕ) :
    digitsVal l.reverse = Nat.ofDigits 10 l := by
  induction l with
  | nil => simp [digitsVal, Nat.ofDigits_nil]
  | cons d ds ih =>
    rw [List.reverse_cons, digitsVal_append_singleton, ih,
      Nat.ofDigits_cons]
    ring

theorem digitsVal_digits (n : ℕ) :
    digitsVal ((Nat.digits 10 n).reverse) = n := by
  rw [digitsVal_reverse_ofDigits]
  exact Nat.ofDigits_digits 10 n

/-- Lexicographic comparison through an equal-length prefix: decided on
the prefixes, or on the tails when the prefixes agree. -/
theorem append_lt_append_iff : ∀ xs ys l1 l2 : List Char,
    xs.length = ys.length →
    ((xs ++ l1).lt (ys ++ l2) ↔ (xs.lt ys ∨ (xs = ys ∧ l1.lt l2)))
  | [], [], l1, l2, _ => by
    constructor
    · intro h
      exact Or.inr ⟨rfl, h⟩
    · rintro (h | ⟨_, h⟩)
      · cases h
      · exact h
  | [], y :: ys, l1, l2, hlen => by simp at hlen
  | x :: xs, [], l1, l2, hlen => by simp at hlen
  | x :: xs, y :: ys, l1, l2, hlen => by
    have hlen' : xs.length = ys.length := by simpa using hlen
    simp only [List.cons_append]
    rcases lt_trichotomy x y with hlt | heq | hgt
    · exact iff_of_true (List.lt.head _ _ hlt) (Or.inl (List.lt.head _ _ hlt))
    · subst heq
      rw [cons_lt_cons_iff, cons_lt_cons_iff]
      simp only [List.cons.injEq, true_and]
      exact append_lt_append_iff xs ys l1 l2 hlen'
    · refine iff_of_false (not_cons_lt_cons_of_gt hgt _ _) ?_
      rintro (h | ⟨heq, _⟩)
      · exact not_cons_lt_cons_of_gt hgt _ _ h
      · injection heq with hxy _
        exact ne_of_gt hgt hxy

theorem jsNatChars_lt_iff {a b : ℕ} (ha : a ≠ 0) (hb : b ≠ 0)
    (hlen : (Nat.digits 10 a).length = (Nat.digits 10 b).length) :
    (jsNatChars a).lt (jsNatChars b) ↔ a < b := by
  rw [jsNatChars, jsNatChars, if_neg ha, if_neg hb,
    digit_lists_lt_iff _ _ (by simpa using hlen)
      (fun d hd => Nat.digits_lt_base (by norm_num) (List.mem_reverse.mp hd))
      (fun d hd => Nat.digits_lt_base (by norm_num) (List.mem_reverse.mp hd)),
    digitsVal_digits, digitsVal_digits]

theorem jsNatChars_eq_iff {a b : ℕ} (ha : a ≠ 0) (hb : b ≠ 0)
    (hlen : (Nat.digits 10 a).length = (Nat.digits 10 b).length) :
    jsNatChars a = jsNatChars b ↔ a = b := by
  constructor
  · intro h
    rcases lt_trichotomy a b with hlt | heq | hgt
    · exfalso
      have hl := (jsNatChars_lt_iff ha hb hlen).mpr hlt
      rw [h] at hl
      exact charsLt_irrefl _ hl
    · exact heq
    · exfalso
      have hl := (jsNatChars_lt_iff hb ha hlen.symm).mpr hgt
      rw [h] at hl
      exact charsLt_irrefl _ hl
  · intro h
    rw [h]

theorem digits_len_four {y : ℕ} (h1 : 1000 ≤ y) (h2 : y ≤ 9999) :
    (Nat.digits 10 y).length = 4 := by
  rw [Nat.digits_len 10 y (by norm_num) (by omega)]
  have hlog : Nat.log 10 y = 3 :=
    Nat.log_eq_of_pow_le_of_lt_pow (by norm_num; omega) (by norm_num; omega)
  omega

theorem padded_month_eq {m : ℕ} (h1 : 1 ≤ m) (h2 : m ≤ 12) :
    padStart2 (jsNatChars m) = [digitChar (m / 10), digitChar (m % 10)] := by
  interval_cases m <;>
    simp [jsNatChars, padStart2, Nat.digits_def', digitChar]

theorem digitsVal_month (m : ℕ) : digitsVal [m / 10, m % 10] = m := by
  simp [digitsVal]
  omega

/-- The string order (Mathlib's linear order on `String`) is the
character-list order of the underlying data. -/
theorem string_lt_iff_data (s t : String) : s < t ↔ s.data.lt t.data := by
  rw [String.lt_iff_toList_lt]
  exact (List.lt_iff_lex_lt _ _).symm

/-- MonthKeys of dates with four-digit years compare lexicographically
exactly as the (year, month) pairs compare chronologically. -/
theorem currentMonth_lt_iff {y1 m1 y2 m2 : ℕ}
    (hy1 : 1000 ≤ y1) (hy1' : y1 ≤ 9999)
    (hy2 : 1000 ≤ y2) (hy2' : y2 ≤ 9999)
    (hm1 : 1 ≤ m1) (hm1' : m1 ≤ 12) (hm2 : 1 ≤ m2) (hm2' : m2 ≤ 12) :
    (currentMonth y1 m1 < currentMonth y2 m2) ↔
      (y1 < y2 ∨ (y1 = y2 ∧ m1 < m2)) := by
  rw [string_lt_iff_data]
  show (jsNatChars y1 ++ '-' :: padStart2 (jsNatChars m1)).lt
    (jsNatChars y2 ++ '-' :: padStart2 (jsNatChars m2)) ↔ _
  have hYlen : (jsNatChars y1).length = (jsNatChars y2).length := by
    rw [jsNatChars, if_neg (by omega), jsNatChars, if_neg (by omega)]
    simp [digits_len_four hy1 hy1', digits_len_four hy2 hy2']
  have hdlen : (Nat.digits 10 y1).length = (Nat.digits 10 y2).length := by
    rw [digits_len_four hy1 hy1', digits_len_four hy2 hy2']
  have hmap : ∀ a b : ℕ, [digitChar a, digitChar b] = List.map digitChar [a, b] :=
    fun a b => rfl
  rw [append_lt_append_iff _ _ _ _ hYlen, cons_lt_cons_iff,
    padded_month_eq hm1 hm1', padded_month_eq hm2 hm2', hmap, hmap,
    digit_lists_lt_iff [m1 / 10, m1 % 10] [m2 / 10, m2 % 10] rfl
      (by intro d hd; simp at hd; omega) (by intro d hd; simp at hd; omega),
    digitsVal_month, digitsVal_month,
    jsNatChars_lt_iff (by omega) (by omega) hdlen,
    jsNatChars_eq_iff (by omega) (by omega) hdlen]

/-! ### C8: MonthKey order vs chronological order -/

/-- C8, counterexample: for the chronologically earlier date 999-12 and
the later date 1000-01, the constructed MonthKeys compare the other way
around (`"1000-01" < "999-12"` lexicographically, since `'1' < '9'`), so
lexicographic order on constructed MonthKeys does not equal chronological
order for every pair of dates. -/
theorem c8_lex_order_fails_across_digit_lengths :
    (999 < 1000 ∨ (999 = 1000 ∧ 12 ≤ 1)) ∧
    ¬ currentMonth 999 12 ≤ currentMonth 1000 1 := by
  have h1 : jsNatChars 1000 = ['1', '0', '0', '0'] := by
    simp [jsNatChars, Nat.digits_def']
    decide
  have h2 : jsNatChars 999 = ['9', '9', '9'] := by
    simp [jsNatChars, Nat.digits_def']
    decide
  have h3 : jsNatChars 1 = ['1'] := by
    simp [jsNatChars, Nat.digits_def', digitChar]
  have h4 : jsNatChars 12 = ['1', '2'] := by
    simp [jsNatChars, Nat.digits_def']
    decide
  refine ⟨Or.inl (by norm_num), ?_⟩
  rw [not_le, string_lt_iff_data]
  show (jsNatChars 1000 ++ '-' :: padStart2 (jsNatChars 1)).lt
    (jsNatChars 999 ++ '-' :: padStart2 (jsNatChars 12))
  rw [h1, h2, h3, h4]
  exact List.lt.head _ _ (by decide)

/-- C8, amended: every MonthKey the system constructs from a date with a
four-digit year (1000–9999) is the year's four decimal digit characters,
a dash, and the month zero-padded to two digits (so its length is 7), and
for any two such dates the MonthKey of the earlier-or-equal date compares
lexicographically less than or equal: lexicographic order equals
chronological order on dates with equal-digit-count (in particular all
four-digit) years. -/
theorem c8_amended_monthkey_format_and_order (y1 m1 y2 m2 : ℕ)
    (hy1 : 1000 ≤ y1) (hy1' : y1 ≤ 9999)
    (hy2 : 1000 ≤ y2) (hy2' : y2 ≤ 9999)
    (hm1 : 1 ≤ m1) (hm1' : m1 ≤ 12) (hm2 : 1 ≤ m2) (hm2' : m2 ≤ 12) :
    (currentMonth y1 m1).data =
      ((Nat.digits 10 y1).reverse.map digitChar) ++
        '-' :: [digitChar (m1 / 10), digitChar (m1 % 10)] ∧
    (currentMonth y1 m1).length = 7 ∧
    (currentMonth y1 m1 ≤ currentMonth y2 m2 ↔
      (y1 < y2 ∨ (y1 = y2 ∧ m1 ≤ m2))) := by
  have hfmt : (currentMonth y1 m1).data =
      ((Nat.digits 10 y1).reverse.map digitChar) ++
        '-' :: [digitChar (m1 / 10), digitChar (m1 % 10)] := by
    show jsNatChars y1 ++ '-' :: padStart2 (jsNatChars m1) = _
    rw [jsNatChars, if_neg (by omega), padded_month_eq hm1 hm1']
  refine ⟨hfmt, ?_, ?_⟩
  · show (currentMonth y1 m1).data.length = 7
    rw [hfmt]
    simp [digits_len_four hy1 hy1']
  · rw [← not_lt,
      currentMonth_lt_iff hy2 hy2' hy1 hy1' hm2 hm2' hm1 hm1']
    omega

/-- C8, witness for the amended theorem at the concrete dates 2024-12 and
2025-01. -/
theorem c8_witness :
    (currentMonth 2024 12).length = 7 ∧
    (currentMonth 2024 12 ≤ currentMonth 2025 1 ↔
      (2024 < 2025 ∨ (2024 = 2025 ∧ 12 ≤ 1))) :=
  ⟨(c8_amended_monthkey_format_and_order 2024 12 2025 1 (by norm_num)
      (by norm_num) (by norm_num) (by norm_num) (by norm_num) (by norm_num)
      (by norm_num) (by norm_num)).2.1,
   (c8_amended_monthkey_format_and_order 2024 12 2025 1 (by norm_num)
      (by norm_num) (by norm_num) (by norm_num) (by norm_num) (by norm_num)
      (by norm_num) (by norm_num)).2.2⟩

end TradeVision
